import Mathlib

/-!
# Verification of the reverse page-table walker (mm/page_vma_mapped.c)

Shallow embedding of `page_vma_mapped_walk` and `page_mapped_in_vma` from the
repository's single source file.  Page-table entries at every level are modelled
as small inductive datatypes carrying exactly the observations the source makes
of them (presence, trans-huge-ness, swap decoding, pfn).  Pointers into page
tables (`pud`, `pmd`, `pte` fields of `struct page_vma_mapped_walk`) are
modelled as the virtual address of the table slot they point at, aligned to the
slot's granularity, so that the source's pointer arithmetic (`pvmw->pmd++`,
`pvmw->pte++`) becomes addition of the slot span.

The page tables themselves are an environment of total functions from slot
addresses to entry values.  The `READ_ONCE` sites of the source (the unlocked
peek at the pud in `page_vma_mapped_walk` and at the pmd in `map_pmd`) read
from a separate snapshot (`pudOnce`, `pmdOnce`) so that the concurrent-split
paths (peek sees a huge entry, the locked re-read does not) are expressible;
all other reads use the stable functions.

The walker's goto-based control flow is embedded as a fuel-indexed step
function over a phase tag; each phase is one of the labels / loop heads of the
C function (`restart`, `next_pmd`, the pmd `while(1)` head, `pte_level`,
`next_pte`, the pte `while(1)` head, and the two do-while skip loops).  Fuel
exhaustion returns `Option.none`; the C function always terminates because the
address strictly increases around every loop, so any concrete run evaluates
with enough fuel.

Ghost fields `pteMapped` (the leaf table is currently mapped, set by
`pte_offset_map`/`huge_pte_offset` and cleared by `pte_unmap`), `nLocks`
(number of `spin_lock` acquisitions) and `nDone` (number of calls to the
cleanup helper `page_vma_mapped_walk_done`) instrument the state without
influencing control flow.
-/

namespace Pvmw

/-! ## Architecture constants (x86-64 4-level paging values) -/

def PAGE_SHIFT : Nat := 12

def PAGE_SIZE : Nat := 2 ^ 12

def PMD_SIZE : Nat := 2 ^ 21

def HPAGE_PMD_SIZE : Nat := PMD_SIZE

def PUD_SIZE : Nat := 2 ^ 30

def P4D_SIZE : Nat := 2 ^ 39

def PGDIR_SIZE : Nat := 2 ^ 39

/-- `HPAGE_PUD_ORDER`: compound order of a PUD-sized transparent huge page. -/
def HPAGE_PUD_ORDER : Nat := 18

/-- Round `a` down to a multiple of `sz` (slot address of the table entry
covering `a` at that granularity). -/
def alignDown (a sz : Nat) : Nat := a / sz * sz

/-! ## Swap entries and per-level entry values -/

/-- Classification of a swap-style (non-present) entry, as consumed through
`is_migration_entry` / `is_device_private_entry`. -/
inductive SwpKind where
  | migration
  | devicePrivate
  | other
deriving DecidableEq

/-- A decoded swap-style entry: its classification plus the frame number
returned by `migration_entry_to_pfn` / `device_private_entry_to_pfn`. -/
structure SwpEntry where
  kind : SwpKind
  pfn : Nat
deriving DecidableEq

/-- Modelled from the spec: swap/migration entry codec and leaf entry
predicates (`pte_none`, `pte_present`, `is_swap_pte`, `pte_pfn`,
`pte_to_swp_entry` are declared in headers outside `src/`).  A leaf entry is
empty, a present mapping of a frame, or a swap-encoded entry. -/
inductive PteVal where
  | none
  | present (pfn : Nat)
  | swap (e : SwpEntry)
deriving DecidableEq

def is_swap_pte : PteVal → Bool
  | .swap _ => true
  | _ => false

def pte_present : PteVal → Bool
  | .present _ => true
  | _ => false

def pte_none : PteVal → Bool
  | .none => true
  | _ => false

def pte_pfn : PteVal → Nat
  | .present p => p
  | _ => 0

def pte_to_swp_entry : PteVal → SwpEntry
  | .swap e => e
  | _ => ⟨SwpKind.other, 0⟩

def is_migration_entry (e : SwpEntry) : Bool :=
  match e.kind with
  | .migration => true
  | _ => false

def is_device_private_entry (e : SwpEntry) : Bool :=
  match e.kind with
  | .devicePrivate => true
  | _ => false

def migration_entry_to_pfn (e : SwpEntry) : Nat := e.pfn

def device_private_entry_to_pfn (e : SwpEntry) : Nat := e.pfn

/-- Modelled from the spec: pmd-level entry predicates (`pmd_none`,
`pmd_present`, `pmd_trans_huge`, `pmd_pfn`, `pmd_to_swp_entry` are declared
outside `src/`).  A leaf-directory entry is empty, a pointer to a leaf table,
a collapsed (trans-huge) mapping of a frame range, or a swap-encoded entry. -/
inductive PmdVal where
  | none
  | table
  | transHuge (pfn : Nat)
  | swap (e : SwpEntry)
deriving DecidableEq

def pmd_present : PmdVal → Bool
  | .table => true
  | .transHuge _ => true
  | _ => false

def pmd_none : PmdVal → Bool
  | .none => true
  | _ => false

def pmd_trans_huge : PmdVal → Bool
  | .transHuge _ => true
  | _ => false

def pmd_pfn : PmdVal → Nat
  | .transHuge p => p
  | _ => 0

def pmd_to_swp_entry : PmdVal → SwpEntry
  | .swap e => e
  | _ => ⟨SwpKind.other, 0⟩

def is_pmd_migration_entry (v : PmdVal) : Bool :=
  !pmd_present v && is_migration_entry (pmd_to_swp_entry v)

/-- Modelled from the spec: pud-level entry predicates (`pud_present`,
`pud_trans_huge`, `pud_page` are declared outside `src/`).  An
intermediate-directory entry is absent, a pointer to a leaf directory, or a
collapsed (trans-huge) mapping. -/
inductive PudVal where
  | none
  | table
  | transHuge (pfn : Nat)
deriving DecidableEq

def pud_present : PudVal → Bool
  | .none => false
  | _ => true

def pud_trans_huge : PudVal → Bool
  | .transHuge _ => true
  | _ => false

/-- `pud_page` of a collapsed pud entry, identified by the head frame number of
the page it maps; the source's `struct page` pointer comparison
`pud_page(*pvmw->pud) != page` becomes comparison of head frame numbers. -/
def pud_page_pfn : PudVal → Nat
  | .transHuge p => p
  | _ => 0

/-! ## Pages, regions, flags, locks, walk state -/

/-- Modelled from the spec: the external `Page` collaborator
(`physicalFrameNumber`, `isCompound`, `isHugetlbBacked`, `frameCount` queries;
`page_to_pfn`, `PageHuge`, `PageTransHuge`, `PageTransCompound`,
`compound_order`, `hpage_nr_pages` are declared outside `src/`). -/
structure PageT where
  pfn : Nat
  isHuge : Bool
  isTransHuge : Bool
  isTransCompound : Bool
  order : Nat
  nrPages : Nat
deriving DecidableEq

/-- Modelled from the spec: `hpage_nr_pages`, the target's `frameCount`. -/
def hpage_nr_pages (page : PageT) : Nat := page.nrPages

/-- The virtual memory region: `vm_start`/`vm_end` bounds. -/
structure VmaT where
  vm_start : Nat
  vm_end : Nat
deriving DecidableEq

/-- The caller-selected flag bits `PVMW_SYNC` and `PVMW_MIGRATION`. -/
structure FlagsT where
  sync : Bool
  migration : Bool
deriving DecidableEq

/-- Identity of the lock recorded in `pvmw->ptl`: the pud-level lock, the lock
of the leaf-directory table containing a pmd entry (`pmd_lock`), the lock of
the leaf table below a pmd entry (`pte_lockptr`), or the dedicated
hugetlb-size lock (`huge_pte_lockptr`). -/
inductive LockId where
  | pudLock (k : Nat)
  | pmdTable (k : Nat)
  | pteTable (k : Nat)
  | hugeLock (k : Nat)
deriving DecidableEq

/-- `struct page_vma_mapped_walk`: the cursor.  `pud`, `pmd`, `pte` hold the
slot address the corresponding pointer field points at (`Option.none` is the
C `NULL`).  `pteMapped`, `nLocks`, `nDone` are ghost instrumentation. -/
structure PVMW where
  page : PageT
  vma : VmaT
  address : Nat
  flags : FlagsT
  pud : Option Nat
  pmd : Option Nat
  pte : Option Nat
  ptl : Option LockId
  pteMapped : Bool
  nLocks : Nat
  nDone : Nat
deriving DecidableEq

/-- The page tables of the searched address space, plus the external queries
the walker consumes.  `pudOnce`/`pmdOnce` are the values observed by the two
`READ_ONCE` sites (they may differ from the stable `pud`/`pmd` values read
under the lock, modelling a concurrent split between peek and re-read).
`vmaAddress` is modelled from the spec: `__vma_address(page, vma)`, the page's
expected first virtual address inside the region (declared outside `src/`).
`hugePte` is modelled from the spec: `huge_pte_offset`, the specialized
hugetlb leaf-entry lookup (declared outside `src/`). -/
structure Env where
  pgdPresent : Nat → Bool
  p4dPresent : Nat → Bool
  pudOnce : Nat → PudVal
  pud : Nat → PudVal
  pmdOnce : Nat → PmdVal
  pmd : Nat → PmdVal
  pte : Nat → PteVal
  hugePte : Nat → Option Nat
  thpMigrationSupported : Bool
  vmaAddress : Nat

/-- The leaf entry value `*pvmw->pte` currently pointed at. -/
def pteAt (env : Env) (s : PVMW) : PteVal := env.pte (s.pte.getD 0)

/-- The leaf-directory entry value `*pvmw->pmd` currently pointed at. -/
def pmdAt (env : Env) (s : PVMW) : PmdVal := env.pmd (s.pmd.getD 0)

/-! ## Helpers of the source file -/

/-- Modelled from the spec: `page_vma_mapped_walk_done` (declared outside
`src/`): releases the held lock, unmaps and clears the leaf handle
(tear-down on every exit path: lock released, handles cleared). -/
def page_vma_mapped_walk_done (s : PVMW) : PVMW :=
  { s with pte := Option.none, ptl := Option.none, pteMapped := false,
           nDone := s.nDone + 1 }

/-- `not_found`: cleanup and report failure. -/
def not_found (s : PVMW) : Bool × PVMW := (false, page_vma_mapped_walk_done s)

/-- The entry-acceptability test of `map_pte` (the reads performed before the
leaf lock is taken): under `PVMW_SYNC` every entry is acceptable; under
`PVMW_MIGRATION` the entry must be swap-encoded; otherwise it must be a
device-private swap entry or a present mapping. -/
def pteMapOk (env : Env) (s : PVMW) : Bool :=
  if s.flags.sync then true
  else if s.flags.migration then is_swap_pte (pteAt env s)
  else if is_swap_pte (pteAt env s) then
    is_device_private_entry (pte_to_swp_entry (pteAt env s))
  else pte_present (pteAt env s)

/-- `map_pte`: map the leaf table (`pte_offset_map` sets the pte pointer to the
slot of the current address and marks it mapped), screen the entry, and on
success take the leaf-table lock.  On failure the pte stays mapped (the
caller's skip loop walks it). -/
def map_pte (env : Env) (s : PVMW) : Bool × PVMW :=
  let s1 := { s with pte := some (alignDown s.address PAGE_SIZE),
                     pteMapped := true }
  if pteMapOk env s1 then
    (true, { s1 with ptl := some (LockId.pteTable (s1.pmd.getD 0)),
                     nLocks := s1.nLocks + 1 })
  else (false, s1)

/-- `map_pmd`: point the pmd field at the current address's slot, peek the
entry with `READ_ONCE`; lock and succeed for trans-huge or pmd-migration
entries, fail for absent entries, lock and succeed for present tables. -/
def map_pmd (env : Env) (s : PVMW) : Bool × PVMW :=
  let s1 := { s with pmd := some (alignDown s.address PMD_SIZE) }
  let pmde := env.pmdOnce (alignDown s.address PMD_SIZE)
  if pmd_trans_huge pmde || is_pmd_migration_entry pmde then
    (true, { s1 with ptl := some (LockId.pmdTable (alignDown s1.address PUD_SIZE)),
                     nLocks := s1.nLocks + 1 })
  else if !pmd_present pmde then (false, s1)
  else
    (true, { s1 with ptl := some (LockId.pmdTable (alignDown s1.address PUD_SIZE)),
                     nLocks := s1.nLocks + 1 })

/-- `pfn_is_match`: a normal or hugetlbfs page matches only its own head frame;
a transparent huge page is matched by any of its subframes. -/
def pfn_is_match (page : PageT) (pfn : Nat) : Bool :=
  if !page.isTransCompound || page.isHuge then pfn == page.pfn
  else page.pfn ≤ pfn && pfn - page.pfn < hpage_nr_pages page

/-- `check_pte`: validate that the current leaf entry maps (a subpage of) the
target.  Under `PVMW_MIGRATION` only a swap-encoded migration entry counts;
otherwise a device-private swap entry or a present mapping counts. -/
def check_pte (env : Env) (s : PVMW) : Bool :=
  if s.flags.migration then
    if !is_swap_pte (pteAt env s) then false
    else if !is_migration_entry (pte_to_swp_entry (pteAt env s)) then false
    else pfn_is_match s.page (migration_entry_to_pfn (pte_to_swp_entry (pteAt env s)))
  else if is_swap_pte (pteAt env s) then
    if !is_device_private_entry (pte_to_swp_entry (pteAt env s)) then false
    else pfn_is_match s.page (device_private_entry_to_pfn (pte_to_swp_entry (pteAt env s)))
  else
    if !pte_present (pteAt env s) then false
    else pfn_is_match s.page (pte_pfn (pteAt env s))

/-- `check_pmd`: 0 = not mapped here, 1 = pmd-level match (`pmd_page`),
2 = present non-huge pmd (split under us / plain table): drop the pmd lock and
continue at the leaf level. -/
def check_pmd (env : Env) (s : PVMW) : Nat × PVMW :=
  let v := pmdAt env s
  if pmd_trans_huge v then
    if s.flags.migration then (0, s)
    else if !pfn_is_match s.page (pmd_pfn v) then (0, s)
    else (1, s)
  else if !pmd_present v then
    if env.thpMigrationSupported then
      if !s.flags.migration then (0, s)
      else if is_migration_entry (pmd_to_swp_entry v) then
        if !pfn_is_match s.page (migration_entry_to_pfn (pmd_to_swp_entry v)) then (0, s)
        else (1, s)
      else (0, s)
    else (0, s)
  else (2, { s with ptl := Option.none })

/-! ## The walker state machine -/

/-- Resumption points of `page_vma_mapped_walk`: the function entry, the
labels `restart` / `next_pmd` / `pte_level` / `next_pte` of the source, the
heads of the two `while (1)` check loops, the map_pmd call site just after the
pud stage, and the bodies of the two do-while skip loops. -/
inductive Phase where
  | entry
  | restart
  | pmdStage
  | pmdLoop
  | nextPmd
  | pmdSkip
  | pteLevel
  | pteLoop
  | nextPte
  | pteSkip
deriving DecidableEq

/-- One fuel-indexed interpreter for the whole goto graph of
`page_vma_mapped_walk`; each phase is one label / loop head of the source and
every transfer of control consumes one unit of fuel. -/
def step (env : Env) : Nat → Phase → PVMW → Option (Bool × PVMW)
  | 0, _, _ => Option.none
  | fuel + 1, ph, s =>
    match ph with
    | .entry =>
      if s.pte = Option.none ∧ s.pmd = Option.none ∧ s.pud ≠ Option.none then
        some (not_found s)
      else if s.pmd ≠ Option.none ∧ s.pte = Option.none then
        step env fuel .nextPmd s
      else if s.pte ≠ Option.none then
        step env fuel .nextPte s
      else if s.page.isHuge then
        match env.hugePte s.address with
        | Option.none => some (false, { s with pte := Option.none })
        | some k =>
          let s1 := { s with pte := some k, pteMapped := true,
                             ptl := some (LockId.hugeLock k),
                             nLocks := s.nLocks + 1 }
          if check_pte env s1 then some (true, s1) else some (not_found s1)
      else step env fuel .restart s
    | .restart =>
      if !env.pgdPresent (alignDown s.address PGDIR_SIZE) then
        some (false, s)
      else if !env.p4dPresent (alignDown s.address P4D_SIZE) then
        some (false, s)
      else
        let k := alignDown s.address PUD_SIZE
        let s1 := { s with pud := some k }
        if pud_trans_huge (env.pudOnce k) then
          let s2 := { s1 with ptl := some (LockId.pudLock k),
                              nLocks := s1.nLocks + 1 }
          if pud_trans_huge (env.pud k) then
            if s2.flags.migration then some (not_found s2)
            else if pud_page_pfn (env.pud k) ≠ s2.page.pfn then some (not_found s2)
            else some (true, s2)
          else
            step env fuel .pmdStage { s2 with ptl := Option.none }
        else if !pud_present (env.pudOnce k) then some (false, s1)
        else step env fuel .pmdStage s1
    | .pmdStage =>
      let r := map_pmd env s
      if r.1 then step env fuel .pmdLoop r.2
      else step env fuel .nextPmd r.2
    | .pmdLoop =>
      let r := check_pmd env s
      if r.1 = 1 then some (true, r.2)
      else if r.1 = 2 then step env fuel .pteLevel r.2
      else step env fuel .nextPmd r.2
    | .nextPmd =>
      if !(s.page.isTransHuge && s.page.order == HPAGE_PUD_ORDER) then
        some (not_found s)
      else step env fuel .pmdSkip s
    | .pmdSkip =>
      let s1 := { s with address := s.address + HPAGE_PMD_SIZE }
      if s1.address ≥ s1.vma.vm_end ∨
         s1.address ≥ env.vmaAddress + hpage_nr_pages s1.page * PAGE_SIZE then
        some (not_found s1)
      else if s1.address % PUD_SIZE = 0 then
        step env fuel .restart { s1 with ptl := Option.none }
      else
        let s2 := { s1 with pmd := s1.pmd.map (fun p => p + PMD_SIZE) }
        if pmd_none (pmdAt env s2) then step env fuel .pmdSkip s2
        else if s2.ptl = Option.none then
          step env fuel .pmdLoop
            { s2 with ptl := some (LockId.pmdTable (alignDown (s2.pmd.getD 0) PUD_SIZE)),
                      nLocks := s2.nLocks + 1 }
        else step env fuel .pmdLoop s2
    | .pteLevel =>
      let r := map_pte env s
      if r.1 then step env fuel .pteLoop r.2
      else step env fuel .nextPte r.2
    | .pteLoop =>
      if check_pte env s then some (true, s)
      else step env fuel .nextPte s
    | .nextPte =>
      if !s.page.isTransHuge || s.page.isHuge then some (not_found s)
      else step env fuel .pteSkip s
    | .pteSkip =>
      let s1 := { s with address := s.address + PAGE_SIZE }
      if s1.address ≥ s1.vma.vm_end ∨
         s1.address ≥ env.vmaAddress + hpage_nr_pages s1.page * PAGE_SIZE then
        some (not_found s1)
      else if s1.address % PMD_SIZE = 0 then
        step env fuel .restart { s1 with pteMapped := false, ptl := Option.none }
      else
        let s2 := { s1 with pte := s1.pte.map (fun p => p + PAGE_SIZE) }
        if pte_none (pteAt env s2) then step env fuel .pteSkip s2
        else if s2.ptl = Option.none then
          step env fuel .pteLoop
            { s2 with ptl := some (LockId.pteTable (s2.pmd.getD 0)),
                      nLocks := s2.nLocks + 1 }
        else step env fuel .pteLoop s2

/-- `page_vma_mapped_walk` (advance): run the state machine from the function
entry. -/
def page_vma_mapped_walk (env : Env) (fuel : Nat) (s : PVMW) :
    Option (Bool × PVMW) :=
  step env fuel Phase.entry s

/-- `page_mapped_in_vma` (isMapped): one-shot containment check.  Computes the
page's expected address span, rejects a span entirely outside the region
without walking, and otherwise drives the walker once from the clipped start
address with only `PVMW_SYNC` set. -/
def page_mapped_in_vma (env : Env) (fuel : Nat) (page : PageT) (vma : VmaT) :
    Bool :=
  let start := env.vmaAddress
  let stop := start + PAGE_SIZE * (hpage_nr_pages page - 1)
  if stop < vma.vm_start ∨ start ≥ vma.vm_end then false
  else
    let s : PVMW :=
      { page := page, vma := vma, address := max start vma.vm_start,
        flags := { sync := true, migration := false },
        pud := Option.none, pmd := Option.none, pte := Option.none,
        ptl := Option.none, pteMapped := false, nLocks := 0, nDone := 0 }
    match page_vma_mapped_walk env fuel s with
    | some (true, _) => true
    | _ => false

/-! ## Invariant vocabulary -/

/-- The torn-down condition required of every failure return: lock released and
leaf-table mapping ended. -/
def cleanedUp (s : PVMW) : Prop := s.ptl = Option.none ∧ s.pteMapped = false

/-- Caller-contract facts needed at each phase so that every failure return is
cleaned up: at the function entry, a state with no leaf handle has no leaf
table mapped, and a state with no handle at all (a fresh walk) holds no lock;
at `restart` the lock is released and the leaf table unmapped; the pmd-level
phases never have a leaf table mapped. -/
def phasePre : Phase → PVMW → Prop
  | .entry, s =>
      (s.pte = Option.none → s.pteMapped = false) ∧
      (s.pte = Option.none → s.pmd = Option.none → s.pud = Option.none →
        s.ptl = Option.none)
  | .restart, s => s.ptl = Option.none ∧ s.pteMapped = false
  | .pmdStage, s => s.pteMapped = false
  | .pmdLoop, s => s.pteMapped = false
  | .nextPmd, s => s.pteMapped = false
  | .pmdSkip, s => s.pteMapped = false
  | _, _ => True

/-- The cursor address lies inside the region. -/
def inBounds (s : PVMW) : Prop :=
  s.vma.vm_start ≤ s.address ∧ s.address < s.vma.vm_end

/-- Address precondition per phase for the in-bounds invariant: the two
skip-loop bodies check their freshly incremented address against `vm_end`
themselves, so they only need the lower bound; every other phase keeps the
address unchanged and needs it fully in range. -/
def phaseLow : Phase → PVMW → Prop
  | .pmdSkip, s => s.vma.vm_start ≤ s.address
  | .pteSkip, s => s.vma.vm_start ≤ s.address
  | _, s => inBounds s

/-! ## Concrete fixtures for witnesses and counterexamples -/

/-- Fixture (C1): an address space with no top-level directory at all. -/
def envW1 : Env :=
  { pgdPresent := fun _ => false, p4dPresent := fun _ => false,
    pudOnce := fun _ => PudVal.none, pud := fun _ => PudVal.none,
    pmdOnce := fun _ => PmdVal.none, pmd := fun _ => PmdVal.none,
    pte := fun _ => PteVal.none, hugePte := fun _ => Option.none,
    thpMigrationSupported := true, vmaAddress := 4096 }

/-- Fixture (C1): a fresh walk state for an ordinary page. -/
def stW1 : PVMW :=
  { page := { pfn := 7, isHuge := false, isTransHuge := false,
              isTransCompound := false, order := 0, nrPages := 1 },
    vma := { vm_start := 4096, vm_end := 12288 }, address := 4096,
    flags := { sync := true, migration := false },
    pud := Option.none, pmd := Option.none, pte := Option.none,
    ptl := Option.none, pteMapped := false, nLocks := 0, nDone := 0 }

/-- Fixture (C2): a pte-mapped transparent huge page of order 9. -/
def pgC2 : PageT :=
  { pfn := 1000, isHuge := false, isTransHuge := true,
    isTransCompound := true, order := 9, nrPages := 512 }

/-- Fixture (C2): a region that ends two pages in, well before the page's own
address span does. -/
def vmaC2 : VmaT := { vm_start := 0, vm_end := 8192 }

/-- Fixture (C2): tables with empty leaf entries below the region and a
matching present entry just past `vm_end` (still inside the page's span). -/
def envC2 : Env :=
  { pgdPresent := fun _ => true, p4dPresent := fun _ => true,
    pudOnce := fun _ => PudVal.table, pud := fun _ => PudVal.table,
    pmdOnce := fun _ => PmdVal.table, pmd := fun _ => PmdVal.table,
    pte := fun a => if a = 8192 then PteVal.present 1000 else PteVal.none,
    hugePte := fun _ => Option.none,
    thpMigrationSupported := true, vmaAddress := 0 }

/-- Fixture (C2): fresh walk over `vmaC2` for `pgC2`. -/
def stC2 : PVMW :=
  { page := pgC2, vma := vmaC2, address := 0,
    flags := { sync := true, migration := false },
    pud := Option.none, pmd := Option.none, pte := Option.none,
    ptl := Option.none, pteMapped := false, nLocks := 0, nDone := 0 }

/-- Fixture (C2 witness): a mid-scan leaf-loop state with the leaf lock held
and a matching present entry at the next leaf slot. -/
def envC2w : Env :=
  { envC2 with pte := fun a => if a = 4096 then PteVal.present 1001 else PteVal.none }

/-- Fixture (C2 witness): scanning state at the first leaf slot of a wider
region. -/
def stC2w : PVMW :=
  { stC2 with vma := { vm_start := 0, vm_end := 2 ^ 21 },
              pte := some 0, pmd := some 0, pud := some 0,
              ptl := some (LockId.pteTable 0), pteMapped := true, nLocks := 2 }

/-- Fixture (C2 witness, exhaustion part): leaf-loop state one page below
`vm_end` of the narrow region. -/
def stC2x : PVMW :=
  { stC2 with address := 4096, pte := some 4096, pmd := some 0, pud := some 0,
              ptl := some (LockId.pteTable 0), pteMapped := true, nLocks := 2 }

/-- Fixture (C3): a PUD-order transparent huge page. -/
def pgC3 : PageT :=
  { pfn := 500, isHuge := false, isTransHuge := true,
    isTransCompound := true, order := 18, nrPages := 262144 }

/-- Fixture (C3): tables whose pud entry is collapsed-huge over the target
(both at the unlocked peek and the locked re-read), while the pmd/pte levels
below hold a matching migration placeholder the claimed fall-through would
report. -/
def envC3 : Env :=
  { pgdPresent := fun _ => true, p4dPresent := fun _ => true,
    pudOnce := fun _ => PudVal.transHuge 500, pud := fun _ => PudVal.transHuge 500,
    pmdOnce := fun _ => PmdVal.table, pmd := fun _ => PmdVal.table,
    pte := fun _ => PteVal.swap ⟨SwpKind.migration, 500⟩,
    hugePte := fun _ => Option.none,
    thpMigrationSupported := true, vmaAddress := 0 }

/-- Fixture (C3): fresh migration-aware walk. -/
def stC3 : PVMW :=
  { page := pgC3, vma := { vm_start := 0, vm_end := 2 ^ 30 }, address := 0,
    flags := { sync := false, migration := true },
    pud := Option.none, pmd := Option.none, pte := Option.none,
    ptl := Option.none, pteMapped := false, nLocks := 0, nDone := 0 }

/-- Fixture (C3 witness): same tables but the locked re-read of the pud sees a
split (non-huge) entry. -/
def envC3s : Env := { envC3 with pud := fun _ => PudVal.table }

/-- Fixture (C5): a PUD-order transparent huge page mapped by two consecutive
collapsed pmd entries. -/
def pgC5 : PageT :=
  { pfn := 8192, isHuge := false, isTransHuge := true,
    isTransCompound := true, order := 18, nrPages := 262144 }

/-- Fixture (C5): tables where pmd slot 0 maps the target's first half and the
sibling pmd slot maps its second half. -/
def envC5 : Env :=
  { pgdPresent := fun _ => true, p4dPresent := fun _ => true,
    pudOnce := fun _ => PudVal.table, pud := fun _ => PudVal.table,
    pmdOnce := fun k => if k = 0 then PmdVal.transHuge 8192 else PmdVal.none,
    pmd := fun k =>
      if k = 0 then PmdVal.transHuge 8192
      else if k = 2 ^ 21 then PmdVal.transHuge 8704
      else PmdVal.none,
    pte := fun _ => PteVal.none, hugePte := fun _ => Option.none,
    thpMigrationSupported := true, vmaAddress := 0 }

/-- Fixture (C5): fresh walk. -/
def stC5 : PVMW :=
  { page := pgC5, vma := { vm_start := 0, vm_end := 2 ^ 30 }, address := 0,
    flags := { sync := false, migration := false },
    pud := Option.none, pmd := Option.none, pte := Option.none,
    ptl := Option.none, pteMapped := false, nLocks := 0, nDone := 0 }

/-- Fixture (C5): the state the first call reports `true` with: a pmd-level
match (leaf handle null, pmd handle set, pmd lock held). -/
def stC5r1 : PVMW :=
  { stC5 with pud := some 0, pmd := some 0,
              ptl := some (LockId.pmdTable 0), nLocks := 1 }

/-- Fixture (C6): tables for exercising both boundary crossings. -/
def envW6 : Env :=
  { pgdPresent := fun _ => true, p4dPresent := fun _ => true,
    pudOnce := fun _ => PudVal.table, pud := fun _ => PudVal.table,
    pmdOnce := fun _ => PmdVal.table, pmd := fun _ => PmdVal.table,
    pte := fun _ => PteVal.none, hugePte := fun _ => Option.none,
    thpMigrationSupported := true, vmaAddress := 2 ^ 21 }

/-- Fixture (C6): a leaf-loop state one page before a leaf-table boundary. -/
def stW6a : PVMW :=
  { page := pgC5, vma := { vm_start := 0, vm_end := 2 ^ 30 },
    address := 2 ^ 21 - 4096,
    flags := { sync := true, migration := false },
    pud := some 0, pmd := some 0, pte := some (2 ^ 21 - 4096),
    ptl := some (LockId.pteTable 0), pteMapped := true, nLocks := 2, nDone := 0 }

/-- Fixture (C6): a pmd-scan state one leaf-table span before an
intermediate-directory boundary. -/
def stW6b : PVMW :=
  { page := pgC5, vma := { vm_start := 0, vm_end := 2 ^ 31 },
    address := 2 ^ 30 - 2 ^ 21,
    flags := { sync := true, migration := false },
    pud := some 0, pmd := some (2 ^ 30 - 2 ^ 21), pte := Option.none,
    ptl := some (LockId.pmdTable 0), pteMapped := false, nLocks := 1, nDone := 0 }

/-- Fixture (C7): a hugetlb-backed page. -/
def pgW7 : PageT :=
  { pfn := 9, isHuge := true, isTransHuge := false,
    isTransCompound := true, order := 9, nrPages := 512 }

/-- Fixture (C7): fresh walk for the hugetlb page over tables whose
specialized hugetlb lookup finds nothing. -/
def stW7 : PVMW :=
  { page := pgW7, vma := { vm_start := 4096, vm_end := 12288 }, address := 4096,
    flags := { sync := false, migration := false },
    pud := Option.none, pmd := Option.none, pte := Option.none,
    ptl := Option.none, pteMapped := false, nLocks := 0, nDone := 0 }

/-- Fixture (C8/C9): an ordinary page present exactly once in the region. -/
def envW9 : Env :=
  { pgdPresent := fun _ => true, p4dPresent := fun _ => true,
    pudOnce := fun _ => PudVal.table, pud := fun _ => PudVal.table,
    pmdOnce := fun _ => PmdVal.table, pmd := fun _ => PmdVal.table,
    pte := fun a => if a = 4096 then PteVal.present 7 else PteVal.none,
    hugePte := fun _ => Option.none,
    thpMigrationSupported := true, vmaAddress := 4096 }

/-- Fixture (C8/C9): the matching page and region. -/
def pgW9 : PageT :=
  { pfn := 7, isHuge := false, isTransHuge := false,
    isTransCompound := false, order := 0, nrPages := 1 }

/-- Fixture (C8/C9): the region. -/
def vmaW9 : VmaT := { vm_start := 4096, vm_end := 12288 }

/-- Fixture (C9): fresh walk at the region start. -/
def stW9 : PVMW :=
  { page := pgW9, vma := vmaW9, address := 4096,
    flags := { sync := true, migration := false },
    pud := Option.none, pmd := Option.none, pte := Option.none,
    ptl := Option.none, pteMapped := false, nLocks := 0, nDone := 0 }

/-- Fixture (C8): a region lying entirely above the page's expected span. -/
def vmaW8 : VmaT := { vm_start := 16384, vm_end := 32768 }

/-- Fixture (C10): a migration-aware state whose pmd handle points at a
present collapsed entry. -/
def envW10 : Env :=
  { pgdPresent := fun _ => true, p4dPresent := fun _ => true,
    pudOnce := fun _ => PudVal.table, pud := fun _ => PudVal.table,
    pmdOnce := fun _ => PmdVal.transHuge 7, pmd := fun _ => PmdVal.transHuge 7,
    pte := fun _ => PteVal.none, hugePte := fun _ => Option.none,
    thpMigrationSupported := true, vmaAddress := 0 }

/-- Fixture (C10): migration-aware walk state with the pmd handle set. -/
def stW10 : PVMW :=
  { page := pgW9, vma := vmaW9, address := 4096,
    flags := { sync := false, migration := true },
    pud := some 0, pmd := some 0, pte := Option.none,
    ptl := some (LockId.pmdTable 0), pteMapped := false, nLocks := 1, nDone := 0 }

/-- Fixture (C4): a leaf-loop state over a migration placeholder for the
target's frame. -/
def envW4 : Env :=
  { pgdPresent := fun _ => true, p4dPresent := fun _ => true,
    pudOnce := fun _ => PudVal.table, pud := fun _ => PudVal.table,
    pmdOnce := fun _ => PmdVal.table, pmd := fun _ => PmdVal.table,
    pte := fun _ => PteVal.swap ⟨SwpKind.migration, 7⟩,
    hugePte := fun _ => Option.none,
    thpMigrationSupported := true, vmaAddress := 0 }

/-- Fixture (C4): leaf-loop state with the leaf handle set. -/
def stW4 : PVMW :=
  { page := pgW9, vma := vmaW9, address := 4096,
    flags := { sync := false, migration := false },
    pud := some 0, pmd := some 0, pte := some 4096,
    ptl := some (LockId.pteTable 0), pteMapped := true, nLocks := 1, nDone := 0 }

/-- Fixture (C5 amended, hugetlb resume): state just after a hugetlb match. -/
def stW5b : PVMW :=
  { stW7 with pte := some 4096, ptl := some (LockId.hugeLock 4096),
              pteMapped := true, nLocks := 1 }

/-! ## Theorems -/

/-- Claim C4: a leaf entry that is a swap-encoded migration placeholder whose
decoded frame lies inside the target's frame range is accepted by `check_pte`
exactly when `PVMW_MIGRATION` is set: with the flag the entry is reported
found (and the leaf check loop reports `true` there), without the flag the
same entry is rejected — never treated as a plain present mapping. -/
theorem check_pte_migration_placeholder (env : Env) (fuel : Nat) (s : PVMW)
    (e : SwpEntry) (hk : e.kind = SwpKind.migration)
    (hpte : pteAt env s = PteVal.swap e)
    (hmatch : pfn_is_match s.page e.pfn = true) :
    check_pte env { s with flags := { s.flags with migration := true } } = true ∧
    check_pte env { s with flags := { s.flags with migration := false } } = false ∧
    step env (fuel + 1) Phase.pteLoop
        { s with flags := { s.flags with migration := true } } =
      some (true, { s with flags := { s.flags with migration := true } }) := by
  obtain ⟨pg, vm, ad, fl, pu, pm, pt, pl, pmap, nl, nd⟩ := s
  obtain ⟨ek, ep⟩ := e
  cases hk
  simp only [pteAt] at hpte
  have hcp : check_pte env
      (⟨pg, vm, ad, ⟨fl.sync, true⟩, pu, pm, pt, pl, pmap, nl, nd⟩ : PVMW) = true := by
    simp [check_pte, pteAt, hpte, is_swap_pte, pte_to_swp_entry,
          is_migration_entry, migration_entry_to_pfn, hmatch]
  refine ⟨hcp, ?_, ?_⟩
  · simp [check_pte, pteAt, hpte, is_swap_pte, pte_to_swp_entry,
          is_device_private_entry]
  · simp only [step, hcp, if_true]

/-- Claim C10: with `PVMW_MIGRATION` set, a present collapsed (trans-huge) pmd
entry is never reported mapped by `check_pmd`, and any pmd-level match under
that flag requires platform support for huge-page migration placeholders and
a non-present swap-encoded migration entry. -/
theorem check_pmd_migration_flag (env : Env) (s : PVMW)
    (hm : s.flags.migration = true) :
    (pmd_trans_huge (pmdAt env s) = true → (check_pmd env s).1 = 0) ∧
    ((check_pmd env s).1 = 1 →
      env.thpMigrationSupported = true ∧
      pmd_present (pmdAt env s) = false ∧
      is_migration_entry (pmd_to_swp_entry (pmdAt env s)) = true) := by
  constructor
  · intro ht
    simp [check_pmd, hm, ht]
  · intro h1
    cases hv : pmdAt env s with
    | none =>
      cases hts : env.thpMigrationSupported <;>
        simp [check_pmd, hv, hm, hts, pmd_trans_huge, pmd_present,
              pmd_to_swp_entry, is_migration_entry] at h1
    | table =>
      simp [check_pmd, hv, pmd_trans_huge, pmd_present] at h1
    | transHuge p =>
      simp [check_pmd, hv, hm, pmd_trans_huge] at h1
    | swap e =>
      cases hts : env.thpMigrationSupported with
      | false =>
        simp [check_pmd, hv, hm, hts, pmd_trans_huge, pmd_present] at h1
      | true =>
        cases hie : is_migration_entry e with
        | false =>
          simp [check_pmd, hv, hm, hts, hie, pmd_trans_huge, pmd_present,
                pmd_to_swp_entry] at h1
        | true =>
          exact ⟨rfl, by simp [pmd_present], by simpa [pmd_to_swp_entry] using hie⟩

/-- Claim C7: for a hugetlb-backed target whose specialized leaf lookup finds
no entry, `advance` returns `false` by a plain return: no lock is ever
acquired (`nLocks` unchanged), the cleanup helper is not called (`nDone`
unchanged), and the result state is not the `not_found` cleaned-up state. -/
theorem hugetlb_missing_pte_plain_false (env : Env) (fuel : Nat) (s : PVMW)
    (h1 : s.pte = Option.none) (h2 : s.pmd = Option.none)
    (h3 : s.pud = Option.none) (h4 : s.page.isHuge = true)
    (h5 : env.hugePte s.address = Option.none) :
    page_vma_mapped_walk env (fuel + 1) s =
      some (false, { s with pte := Option.none }) ∧
    ({ s with pte := Option.none }).nLocks = s.nLocks ∧
    ({ s with pte := Option.none }).nDone = s.nDone ∧
    { s with pte := Option.none } ≠ page_vma_mapped_walk_done s := by
  refine ⟨?_, rfl, rfl, ?_⟩
  · simp [page_vma_mapped_walk, step, h1, h2, h3, h4, h5]
  · intro hcontra
    have hd := congrArg PVMW.nDone hcontra
    simp [page_vma_mapped_walk_done] at hd

/-- Claim C8: `page_mapped_in_vma` computes the page's expected address span;
a span entirely outside the region yields `false` for any page-table contents
(the walker is never consulted), and otherwise the result is that of one
walker run started at the expected address clipped up to `vm_start` with only
the `PVMW_SYNC` flag set. -/
theorem page_mapped_in_vma_span_check (env : Env) (fuel : Nat) (page : PageT)
    (vma : VmaT) :
    (env.vmaAddress + PAGE_SIZE * (hpage_nr_pages page - 1) < vma.vm_start ∨
        env.vmaAddress ≥ vma.vm_end →
      ∀ env2 : Env, env2.vmaAddress = env.vmaAddress →
        page_mapped_in_vma env2 fuel page vma = false) ∧
    (¬(env.vmaAddress + PAGE_SIZE * (hpage_nr_pages page - 1) < vma.vm_start ∨
        env.vmaAddress ≥ vma.vm_end) →
      page_mapped_in_vma env fuel page vma =
        match page_vma_mapped_walk env fuel
            { page := page, vma := vma,
              address := max env.vmaAddress vma.vm_start,
              flags := { sync := true, migration := false },
              pud := Option.none, pmd := Option.none, pte := Option.none,
              ptl := Option.none, pteMapped := false, nLocks := 0,
              nDone := 0 } with
        | some (true, _) => true
        | _ => false) := by
  constructor
  · intro h env2 he
    simp only [page_mapped_in_vma]
    rw [he, if_pos h]
  · intro h
    simp only [page_mapped_in_vma]
    rw [if_neg h]

/-- Claim C2 (amended): the leaf skip loop reports exhaustion as soon as the
advanced address leaves EITHER the region OR the target page's own address
span (the source tests the two bounds with a disjunction); while the address
is inside BOTH ranges the scan continues — in particular a matching non-empty
sibling entry is still reported found. -/
theorem pteSkip_exhausts_on_either_bound (env : Env) (fuel : Nat) (s : PVMW)
    (k : Nat) (l : LockId) :
    (s.address + PAGE_SIZE ≥ s.vma.vm_end ∨
        s.address + PAGE_SIZE ≥
          env.vmaAddress + hpage_nr_pages s.page * PAGE_SIZE →
      step env (fuel + 1) Phase.pteSkip s =
        some (not_found { s with address := s.address + PAGE_SIZE })) ∧
    (s.address + PAGE_SIZE < s.vma.vm_end →
      s.address + PAGE_SIZE <
        env.vmaAddress + hpage_nr_pages s.page * PAGE_SIZE →
      (s.address + PAGE_SIZE) % PMD_SIZE ≠ 0 →
      s.pte = some k → s.ptl = some l →
      pte_none (env.pte (k + PAGE_SIZE)) = false →
      check_pte env { s with address := s.address + PAGE_SIZE,
                             pte := some (k + PAGE_SIZE) } = true →
      step env (fuel + 2) Phase.pteSkip s =
        some (true, { s with address := s.address + PAGE_SIZE,
                             pte := some (k + PAGE_SIZE) })) := by
  obtain ⟨pg, vm, ad, fl, pu, pm, pt, pl, pmap, nl, nd⟩ := s
  constructor
  · intro h
    simp only [step]
    rw [if_pos h]
  · intro h1 h2 h3 h4 h5 h6 h7
    subst h4
    subst h5
    have hno : ¬(ad + PAGE_SIZE ≥ vm.vm_end ∨
        ad + PAGE_SIZE ≥ env.vmaAddress + hpage_nr_pages pg * PAGE_SIZE) := by
      simp only [not_or, not_le]
      exact ⟨h1, h2⟩
    simp only [step, pteAt, Option.map_some', Option.getD_some]
    rw [if_neg hno, if_neg h3, if_neg (by simp [h6]), if_neg (by simp),
        if_pos h7]

/-- Claim C6: whenever a skip loop advances the address onto a leaf-table
boundary (multiple of `PMD_SIZE`) the walker unmaps the leaf handle, releases
any held lock and re-enters full top-down resolution (`restart`) at the new
address; the analogous release-and-restart happens at intermediate-directory
boundaries (multiple of `PUD_SIZE`) in the pmd-level skip loop. -/
theorem skip_boundary_crossing_restarts (env : Env) (fuel : Nat)
    (s t : PVMW) :
    (s.address + PAGE_SIZE < s.vma.vm_end →
      s.address + PAGE_SIZE <
        env.vmaAddress + hpage_nr_pages s.page * PAGE_SIZE →
      (s.address + PAGE_SIZE) % PMD_SIZE = 0 →
      step env (fuel + 1) Phase.pteSkip s =
        step env fuel Phase.restart
          { s with address := s.address + PAGE_SIZE, pteMapped := false,
                   ptl := Option.none }) ∧
    (t.address + HPAGE_PMD_SIZE < t.vma.vm_end →
      t.address + HPAGE_PMD_SIZE <
        env.vmaAddress + hpage_nr_pages t.page * PAGE_SIZE →
      (t.address + HPAGE_PMD_SIZE) % PUD_SIZE = 0 →
      step env (fuel + 1) Phase.pmdSkip t =
        step env fuel Phase.restart
          { t with address := t.address + HPAGE_PMD_SIZE,
                   ptl := Option.none }) := by
  constructor
  · obtain ⟨pg, vm, ad, fl, pu, pm, pt, pl, pmap, nl, nd⟩ := s
    intro h1 h2 h3
    have hno : ¬(ad + PAGE_SIZE ≥ vm.vm_end ∨
        ad + PAGE_SIZE ≥ env.vmaAddress + hpage_nr_pages pg * PAGE_SIZE) := by
      simp only [not_or, not_le]
      exact ⟨h1, h2⟩
    simp only [step]
    rw [if_neg hno, if_pos h3]
  · obtain ⟨pg, vm, ad, fl, pu, pm, pt, pl, pmap, nl, nd⟩ := t
    intro h1 h2 h3
    have hno : ¬(ad + HPAGE_PMD_SIZE ≥ vm.vm_end ∨
        ad + HPAGE_PMD_SIZE ≥
          env.vmaAddress + hpage_nr_pages pg * PAGE_SIZE) := by
      simp only [not_or, not_le]
      exact ⟨h1, h2⟩
    simp only [step]
    rw [if_neg hno, if_pos h3]

/-- Claim C3 (amended): when the pud entry is observed collapsed-huge and the
locked re-read confirms it, a match returns `true` with the pud lock held,
while a no-match (`PVMW_MIGRATION` set, or a different page) TERMINATES the
walk through the cleaned-up `not_found` path; the fall-through to
per-pagetable-entry resolution happens only in the concurrent-split case,
which first releases the freshly taken pud lock. -/
theorem pud_level_outcomes (env : Env) (fuel : Nat) (s : PVMW) (q : Nat)
    (hpgd : env.pgdPresent (alignDown s.address PGDIR_SIZE) = true)
    (hp4d : env.p4dPresent (alignDown s.address P4D_SIZE) = true)
    (hpeek : pud_trans_huge (env.pudOnce (alignDown s.address PUD_SIZE)) = true) :
    (env.pud (alignDown s.address PUD_SIZE) = PudVal.transHuge q →
      (s.flags.migration = true ∨ q ≠ s.page.pfn) →
      step env (fuel + 1) Phase.restart s =
        some (not_found
          { s with pud := some (alignDown s.address PUD_SIZE),
                   ptl := some (LockId.pudLock (alignDown s.address PUD_SIZE)),
                   nLocks := s.nLocks + 1 })) ∧
    (env.pud (alignDown s.address PUD_SIZE) = PudVal.transHuge q →
      s.flags.migration = false → q = s.page.pfn →
      step env (fuel + 1) Phase.restart s =
        some (true,
          { s with pud := some (alignDown s.address PUD_SIZE),
                   ptl := some (LockId.pudLock (alignDown s.address PUD_SIZE)),
                   nLocks := s.nLocks + 1 })) ∧
    (pud_trans_huge (env.pud (alignDown s.address PUD_SIZE)) = false →
      step env (fuel + 1) Phase.restart s =
        step env fuel Phase.pmdStage
          { s with pud := some (alignDown s.address PUD_SIZE),
                   ptl := Option.none, nLocks := s.nLocks + 1 }) := by
  obtain ⟨pg, vm, ad, fl, pu, pm, pt, pl, pmap, nl, nd⟩ := s
  simp only at hpgd hp4d hpeek
  refine ⟨?_, ?_, ?_⟩
  · intro hq hnm
    simp only [step]
    rw [if_neg (by simp [hpgd]), if_neg (by simp [hp4d]), if_pos hpeek, hq]
    by_cases hmig : fl.migration = true
    · rw [if_pos (by simp [pud_trans_huge]), if_pos hmig]
    · have hqp : q ≠ pg.pfn := by
        rcases hnm with hm | hqp
        · exact absurd hm hmig
        · exact hqp
      rw [if_pos (by simp [pud_trans_huge]),
          if_neg (by simpa using hmig), if_pos (by simpa [pud_page_pfn] using hqp)]
  · intro hq hmf hqe
    simp only at hq hmf hqe
    simp only [step]
    rw [if_neg (by simp [hpgd]), if_neg (by simp [hp4d]), if_pos hpeek, hq]
    rw [if_pos (by simp [pud_trans_huge]), if_neg (by simp [hmf]),
        if_neg (by simp [pud_page_pfn, hqe])]
  · intro hsplit
    simp only [step]
    rw [if_neg (by simp [hpgd]), if_neg (by simp [hp4d]), if_pos hpeek,
        if_neg (by simp [hsplit])]

/-- Claim C5 (amended): the call following a reported match returns `false`
immediately for a pud-level match (coarse handle set, pmd and pte null) and
for a hugetlb match (leaf handle set on a hugetlb page); after a pmd-level
match (pmd set, pte null) it returns `false` immediately exactly when the
target is NOT a pmd-mapped pud-order compound page — for a pud-order target
the walk instead continues scanning further pmd entries and can report
another match. -/
theorem second_advance_immediate_false_cases (env : Env) (fuel : Nat)
    (s : PVMW) :
    (s.pte = Option.none → s.pmd = Option.none → s.pud ≠ Option.none →
      page_vma_mapped_walk env (fuel + 1) s = some (not_found s)) ∧
    (s.pte ≠ Option.none → s.page.isHuge = true →
      page_vma_mapped_walk env (fuel + 2) s = some (not_found s)) ∧
    (s.pmd ≠ Option.none → s.pte = Option.none →
      (s.page.isTransHuge && s.page.order == HPAGE_PUD_ORDER) = false →
      page_vma_mapped_walk env (fuel + 2) s = some (not_found s)) := by
  obtain ⟨pg, vm, ad, fl, pu, pm, pt, pl, pmap, nl, nd⟩ := s
  refine ⟨?_, ?_, ?_⟩
  · intro h1 h2 h3
    simp only at h1 h2 h3
    subst h1; subst h2
    simp [page_vma_mapped_walk, step, h3]
  · intro h1 h2
    simp only at h1 h2
    simp [page_vma_mapped_walk, step, h1, h2]
  · intro h1 h2 h3
    simp only at h1 h2 h3
    subst h2
    simp [page_vma_mapped_walk, step, h1, h3]

/-! ## Helper lemmas for the cleanup and bounds invariants -/

theorem map_pmd_snd_pteMapped (env : Env) (s : PVMW) :
    (map_pmd env s).2.pteMapped = s.pteMapped := by
  simp only [map_pmd]
  split
  · rfl
  · split <;> rfl

theorem map_pmd_snd_address (env : Env) (s : PVMW) :
    (map_pmd env s).2.address = s.address := by
  simp only [map_pmd]
  split
  · rfl
  · split <;> rfl

theorem map_pmd_snd_vma (env : Env) (s : PVMW) :
    (map_pmd env s).2.vma = s.vma := by
  simp only [map_pmd]
  split
  · rfl
  · split <;> rfl

theorem map_pte_snd_address (env : Env) (s : PVMW) :
    (map_pte env s).2.address = s.address := by
  simp only [map_pte]
  split <;> rfl

theorem map_pte_snd_vma (env : Env) (s : PVMW) :
    (map_pte env s).2.vma = s.vma := by
  simp only [map_pte]
  split <;> rfl

theorem check_pmd_snd_pteMapped (env : Env) (s : PVMW) :
    (check_pmd env s).2.pteMapped = s.pteMapped := by
  simp only [check_pmd]
  repeat' split
  all_goals rfl

theorem check_pmd_snd_address (env : Env) (s : PVMW) :
    (check_pmd env s).2.address = s.address := by
  simp only [check_pmd]
  repeat' split
  all_goals rfl

theorem check_pmd_snd_vma (env : Env) (s : PVMW) :
    (check_pmd env s).2.vma = s.vma := by
  simp only [check_pmd]
  repeat' split
  all_goals rfl

/-- A failure result equal to `not_found` is cleaned up. -/
theorem not_found_result (s s2 : PVMW)
    (h : some (not_found s) = some (false, s2)) :
    s2.ptl = Option.none ∧ s2.pteMapped = false := by
  have h2 : page_vma_mapped_walk_done s = s2 :=
    congrArg Prod.snd ((Option.some.injEq _ _).mp h)
  rw [← h2]
  exact ⟨rfl, rfl⟩

/-- Extract the state of a returned pair. -/
theorem result_state_eq (s1 s2 : PVMW) (b c : Bool)
    (h : some ((b, s1) : Bool × PVMW) = some (c, s2)) : s1 = s2 :=
  congrArg Prod.snd ((Option.some.injEq _ _).mp h)

/-- Master cleanup invariant: under the per-phase caller-contract facts, every
`false` result of the state machine has its lock released and leaf table
unmapped. -/
theorem step_false_cleanup (env : Env) :
    ∀ fuel ph s s2, phasePre ph s →
      step env fuel ph s = some (false, s2) →
      s2.ptl = Option.none ∧ s2.pteMapped = false := by
  intro fuel
  induction fuel with
  | zero =>
    intro ph s s2 _ h
    simp [step] at h
  | succ n ih =>
    intro ph s s2 hpre h
    cases ph with
    | entry =>
      simp only [phasePre] at hpre
      obtain ⟨hpre1, hpre2⟩ := hpre
      simp only [step] at h
      split at h
      · exact not_found_result _ _ h
      · rename_i hc1
        split at h
        · rename_i hc2
          exact ih Phase.nextPmd _ _ (hpre1 hc2.2) h
        · rename_i hc2
          split at h
          · exact ih Phase.nextPte _ _ True.intro h
          · rename_i hc3
            have hpte : s.pte = Option.none := by
              by_contra hne
              exact hc3 hne
            have hpmd : s.pmd = Option.none := by
              by_contra hne
              exact hc2 ⟨hne, hpte⟩
            have hpud : s.pud = Option.none := by
              by_contra hne
              exact hc1 ⟨hpte, hpmd, hne⟩
            split at h
            · split at h
              · have h2 := (result_state_eq _ _ _ _ h).symm
                rw [h2]
                exact ⟨hpre2 hpte hpmd hpud, hpre1 hpte⟩
              · split at h
                · exact absurd (congrArg Prod.fst ((Option.some.injEq _ _).mp h))
                    (by simp)
                · exact not_found_result _ _ h
            · exact ih Phase.restart _ _ ⟨hpre2 hpte hpmd hpud, hpre1 hpte⟩ h
    | restart =>
      simp only [phasePre] at hpre
      simp only [step] at h
      split at h
      · have h2 := (result_state_eq _ _ _ _ h).symm
        rw [h2]
        exact hpre
      · split at h
        · have h2 := (result_state_eq _ _ _ _ h).symm
          rw [h2]
          exact hpre
        · split at h
          · split at h
            · split at h
              · exact not_found_result _ _ h
              · split at h
                · exact not_found_result _ _ h
                · exact absurd (congrArg Prod.fst ((Option.some.injEq _ _).mp h))
                    (by simp)
            · refine ih Phase.pmdStage _ _ ?_ h
              exact hpre.2
          · split at h
            · have h2 := (result_state_eq _ _ _ _ h).symm
              rw [h2]
              exact hpre
            · refine ih Phase.pmdStage _ _ ?_ h
              exact hpre.2
    | pmdStage =>
      simp only [phasePre] at hpre
      simp only [step] at h
      have hm : (map_pmd env s).2.pteMapped = false := by
        rw [map_pmd_snd_pteMapped]
        exact hpre
      split at h
      · exact ih Phase.pmdLoop _ _ hm h
      · exact ih Phase.nextPmd _ _ hm h
    | pmdLoop =>
      simp only [phasePre] at hpre
      simp only [step] at h
      have hm : (check_pmd env s).2.pteMapped = false := by
        rw [check_pmd_snd_pteMapped]
        exact hpre
      split at h
      · exact absurd (congrArg Prod.fst ((Option.some.injEq _ _).mp h)) (by simp)
      · split at h
        · exact ih Phase.pteLevel _ _ True.intro h
        · exact ih Phase.nextPmd _ _ hm h
    | nextPmd =>
      simp only [phasePre] at hpre
      simp only [step] at h
      split at h
      · exact not_found_result _ _ h
      · exact ih Phase.pmdSkip _ _ hpre h
    | pmdSkip =>
      simp only [phasePre] at hpre
      simp only [step] at h
      split at h
      · exact not_found_result _ _ h
      · split at h
        · refine ih Phase.restart _ _ ?_ h
          exact ⟨rfl, hpre⟩
        · split at h
          · refine ih Phase.pmdSkip _ _ ?_ h
            exact hpre
          · split at h
            · refine ih Phase.pmdLoop _ _ ?_ h
              exact hpre
            · refine ih Phase.pmdLoop _ _ ?_ h
              exact hpre
    | pteLevel =>
      simp only [step] at h
      split at h
      · exact ih Phase.pteLoop _ _ True.intro h
      · exact ih Phase.nextPte _ _ True.intro h
    | pteLoop =>
      simp only [step] at h
      split at h
      · exact absurd (congrArg Prod.fst ((Option.some.injEq _ _).mp h)) (by simp)
      · exact ih Phase.nextPte _ _ True.intro h
    | nextPte =>
      simp only [step] at h
      split at h
      · exact not_found_result _ _ h
      · exact ih Phase.pteSkip _ _ True.intro h
    | pteSkip =>
      simp only [step] at h
      split at h
      · exact not_found_result _ _ h
      · split at h
        · refine ih Phase.restart _ _ ?_ h
          exact ⟨rfl, rfl⟩
        · split at h
          · refine ih Phase.pteSkip _ _ ?_ h
            exact True.intro
          · split at h
            · refine ih Phase.pteLoop _ _ ?_ h
              exact True.intro
            · refine ih Phase.pteLoop _ _ ?_ h
              exact True.intro

/-- Master bounds invariant: started inside the region (skip phases need only
the lower bound, since they bound-check their freshly incremented address
themselves), every `true` result reports an address inside the region of the
unchanged vma. -/
theorem step_true_in_bounds (env : Env) :
    ∀ fuel ph s s2, phaseLow ph s →
      step env fuel ph s = some (true, s2) →
      inBounds s2 ∧ s2.vma = s.vma := by
  intro fuel
  induction fuel with
  | zero =>
    intro ph s s2 _ h
    simp [step] at h
  | succ n ih =>
    intro ph s s2 hpre h
    cases ph with
    | entry =>
      simp only [phaseLow] at hpre
      simp only [step] at h
      split at h
      · exact absurd (congrArg Prod.fst ((Option.some.injEq _ _).mp h)) (by simp [not_found])
      · split at h
        · exact ih Phase.nextPmd _ _ hpre h
        · split at h
          · exact ih Phase.nextPte _ _ hpre h
          · split at h
            · split at h
              · exact absurd (congrArg Prod.fst ((Option.some.injEq _ _).mp h)) (by simp)
              · split at h
                · have h2 := result_state_eq _ _ _ _ h
                  rw [← h2]
                  exact ⟨hpre, rfl⟩
                · exact absurd (congrArg Prod.fst ((Option.some.injEq _ _).mp h))
                    (by simp [not_found])
            · exact ih Phase.restart _ _ hpre h
    | restart =>
      simp only [phaseLow] at hpre
      simp only [step] at h
      split at h
      · exact absurd (congrArg Prod.fst ((Option.some.injEq _ _).mp h)) (by simp)
      · split at h
        · exact absurd (congrArg Prod.fst ((Option.some.injEq _ _).mp h)) (by simp)
        · split at h
          · split at h
            · split at h
              · exact absurd (congrArg Prod.fst ((Option.some.injEq _ _).mp h))
                  (by simp [not_found])
              · split at h
                · exact absurd (congrArg Prod.fst ((Option.some.injEq _ _).mp h))
                    (by simp [not_found])
                · have h2 := result_state_eq _ _ _ _ h
                  rw [← h2]
                  exact ⟨hpre, rfl⟩
            · have hr := ih Phase.pmdStage _ _ ?_ h
              exact ⟨hr.1, hr.2⟩
              exact hpre
          · split at h
            · exact absurd (congrArg Prod.fst ((Option.some.injEq _ _).mp h)) (by simp)
            · have hr := ih Phase.pmdStage _ _ ?_ h
              exact ⟨hr.1, hr.2⟩
              exact hpre
    | pmdStage =>
      simp only [phaseLow] at hpre
      simp only [step] at h
      have hb : inBounds (map_pmd env s).2 := by
        unfold inBounds
        rw [map_pmd_snd_address, map_pmd_snd_vma]
        exact hpre
      split at h
      · have hr := ih Phase.pmdLoop _ _ hb h
        exact ⟨hr.1, hr.2.trans (map_pmd_snd_vma env s)⟩
      · have hr := ih Phase.nextPmd _ _ hb h
        exact ⟨hr.1, hr.2.trans (map_pmd_snd_vma env s)⟩
    | pmdLoop =>
      simp only [phaseLow] at hpre
      simp only [step] at h
      have hb : inBounds (check_pmd env s).2 := by
        unfold inBounds
        rw [check_pmd_snd_address, check_pmd_snd_vma]
        exact hpre
      split at h
      · have h2 := result_state_eq _ _ _ _ h
        rw [← h2]
        exact ⟨hb, check_pmd_snd_vma env s⟩
      · split at h
        · have hr := ih Phase.pteLevel _ _ hb h
          exact ⟨hr.1, hr.2.trans (check_pmd_snd_vma env s)⟩
        · have hr := ih Phase.nextPmd _ _ hb h
          exact ⟨hr.1, hr.2.trans (check_pmd_snd_vma env s)⟩
    | nextPmd =>
      simp only [phaseLow] at hpre
      simp only [step] at h
      split at h
      · exact absurd (congrArg Prod.fst ((Option.some.injEq _ _).mp h)) (by simp [not_found])
      · exact ih Phase.pmdSkip _ _ hpre.1 h
    | pmdSkip =>
      simp only [phaseLow] at hpre
      simp only [step] at h
      split at h
      · exact absurd (congrArg Prod.fst ((Option.some.injEq _ _).mp h)) (by simp [not_found])
      · rename_i hnx
        have hup : s.address + HPAGE_PMD_SIZE < s.vma.vm_end :=
          not_le.mp (not_or.mp hnx).1
        have hlo2 : s.vma.vm_start ≤ s.address + HPAGE_PMD_SIZE :=
          Nat.le_trans hpre (Nat.le_add_right _ _)
        split at h
        · have hr := ih Phase.restart _ _ ?_ h
          exact ⟨hr.1, hr.2⟩
          exact ⟨hlo2, hup⟩
        · split at h
          · have hr := ih Phase.pmdSkip _ _ ?_ h
            exact ⟨hr.1, hr.2⟩
            exact hlo2
          · split at h
            · have hr := ih Phase.pmdLoop _ _ ?_ h
              exact ⟨hr.1, hr.2⟩
              exact ⟨hlo2, hup⟩
            · have hr := ih Phase.pmdLoop _ _ ?_ h
              exact ⟨hr.1, hr.2⟩
              exact ⟨hlo2, hup⟩
    | pteLevel =>
      simp only [phaseLow] at hpre
      simp only [step] at h
      have hb : inBounds (map_pte env s).2 := by
        unfold inBounds
        rw [map_pte_snd_address, map_pte_snd_vma]
        exact hpre
      split at h
      · have hr := ih Phase.pteLoop _ _ hb h
        exact ⟨hr.1, hr.2.trans (map_pte_snd_vma env s)⟩
      · have hr := ih Phase.nextPte _ _ hb h
        exact ⟨hr.1, hr.2.trans (map_pte_snd_vma env s)⟩
    | pteLoop =>
      simp only [phaseLow] at hpre
      simp only [step] at h
      split at h
      · have h2 := result_state_eq _ _ _ _ h
        rw [← h2]
        exact ⟨hpre, rfl⟩
      · exact ih Phase.nextPte _ _ hpre h
    | nextPte =>
      simp only [phaseLow] at hpre
      simp only [step] at h
      split at h
      · exact absurd (congrArg Prod.fst ((Option.some.injEq _ _).mp h)) (by simp [not_found])
      · exact ih Phase.pteSkip _ _ hpre.1 h
    | pteSkip =>
      simp only [phaseLow] at hpre
      simp only [step] at h
      split at h
      · exact absurd (congrArg Prod.fst ((Option.some.injEq _ _).mp h)) (by simp [not_found])
      · rename_i hnx
        have hup : s.address + PAGE_SIZE < s.vma.vm_end :=
          not_le.mp (not_or.mp hnx).1
        have hlo2 : s.vma.vm_start ≤ s.address + PAGE_SIZE :=
          Nat.le_trans hpre (Nat.le_add_right _ _)
        split at h
        · have hr := ih Phase.restart _ _ ?_ h
          exact ⟨hr.1, hr.2⟩
          exact ⟨hlo2, hup⟩
        · split at h
          · have hr := ih Phase.pteSkip _ _ ?_ h
            exact ⟨hr.1, hr.2⟩
            exact hlo2
          · split at h
            · have hr := ih Phase.pteLoop _ _ ?_ h
              exact ⟨hr.1, hr.2⟩
              exact ⟨hlo2, hup⟩
            · have hr := ih Phase.pteLoop _ _ ?_ h
              exact ⟨hr.1, hr.2⟩
              exact ⟨hlo2, hup⟩

/-- Claim C1: every exit of `page_vma_mapped_walk` that returns `false`
(including the plain `return false` exits taken when a directory level is
absent) leaves the state with the lock released (`ptl` null) and the leaf
table unmapped, given the caller contract: a state without a leaf handle has
no leaf table mapped, and a state with no handles at all holds no lock. -/
theorem walk_false_releases_and_unmaps (env : Env) (fuel : Nat) (s s2 : PVMW)
    (hpte : s.pte = Option.none → s.pteMapped = false)
    (hfresh : s.pte = Option.none → s.pmd = Option.none →
      s.pud = Option.none → s.ptl = Option.none)
    (h : page_vma_mapped_walk env fuel s = some (false, s2)) :
    s2.ptl = Option.none ∧ s2.pteMapped = false :=
  step_false_cleanup env fuel Phase.entry s s2 ⟨hpte, hfresh⟩ h

/-- Witness for C1: concrete run over an address space with an absent
top-level directory (one of the plain `return false` exits). -/
theorem walk_false_releases_and_unmaps_witness :
    stW1.ptl = Option.none ∧ stW1.pteMapped = false :=
  walk_false_releases_and_unmaps envW1 4 stW1 stW1
    (fun _ => rfl) (fun _ _ _ => rfl) (by decide)

/-- Claim C9: a walk started at an address inside the region only reports
matches at addresses inside the (unchanged) region. -/
theorem walk_true_address_in_bounds (env : Env) (fuel : Nat) (s s2 : PVMW)
    (hlo : s.vma.vm_start ≤ s.address) (hhi : s.address < s.vma.vm_end)
    (h : page_vma_mapped_walk env fuel s = some (true, s2)) :
    s2.vma = s.vma ∧ s.vma.vm_start ≤ s2.address ∧
      s2.address < s.vma.vm_end := by
  obtain ⟨hb, hv⟩ :=
    step_true_in_bounds env fuel Phase.entry s s2 ⟨hlo, hhi⟩ h
  refine ⟨hv, ?_, ?_⟩
  · rw [← hv]
    exact hb.1
  · rw [← hv]
    exact hb.2

/-- Witness for C9: concrete walk that finds its page inside the region. -/
theorem walk_true_address_in_bounds_witness :
    ((page_vma_mapped_walk envW9 12 stW9).getD (false, stW9)).2.vma = stW9.vma ∧
    stW9.vma.vm_start ≤
      ((page_vma_mapped_walk envW9 12 stW9).getD (false, stW9)).2.address ∧
    ((page_vma_mapped_walk envW9 12 stW9).getD (false, stW9)).2.address <
      stW9.vma.vm_end :=
  walk_true_address_in_bounds envW9 12 stW9 _ (by decide) (by decide) (by decide)

/-- Counterexample to claim C2 as stated: the walker reports exhaustion at
address 8192 = `vm_end`, an address still strictly inside the target page's
own address span (the page covers `[0, 2^21)`), even though a matching present
entry sits at 8192 — so the scan does NOT continue while the address is inside
only the page's range: the source stops as soon as EITHER bound is left. -/
theorem pteSkip_claimed_both_bounds_cex :
    (page_vma_mapped_walk envC2 32 stC2).map (fun r => (r.1, r.2.address)) =
      some (false, 8192) ∧
    8192 < envC2.vmaAddress + hpage_nr_pages pgC2 * PAGE_SIZE ∧
    vmaC2.vm_end = 8192 ∧ pgC2.isTransHuge = true ∧
    envC2.pte 8192 = PteVal.present 1000 := by decide

/-- Witness for the amended C2 theorem: both conjuncts at concrete inputs. -/
theorem pteSkip_exhausts_on_either_bound_witness :
    step envC2 5 Phase.pteSkip stC2x =
      some (not_found { stC2x with address := stC2x.address + PAGE_SIZE }) ∧
    step envC2w 6 Phase.pteSkip stC2w =
      some (true, { stC2w with address := stC2w.address + PAGE_SIZE,
                               pte := some (0 + PAGE_SIZE) }) :=
  ⟨(pteSkip_exhausts_on_either_bound envC2 4 stC2x 4096 (LockId.pteTable 0)).1
      (by decide),
   (pteSkip_exhausts_on_either_bound envC2w 4 stC2w 0 (LockId.pteTable 0)).2
      (by decide) (by decide) (by decide) (by decide) (by decide) (by decide)
      (by decide)⟩

/-- Counterexample to claim C3 as stated: pud entry observed collapsed-huge,
re-confirmed collapsed under the pud lock, `MigrationAware` set (match
skipped) — the actual walk TERMINATES returning `false`, while the claimed
fall-through to per-pagetable-entry resolution would have reported `true`
(the leaf level holds a matching migration placeholder). -/
theorem pud_confirmed_no_match_terminates_cex :
    (page_vma_mapped_walk envC3 16 stC3).map Prod.fst = some false ∧
    pud_trans_huge (envC3.pudOnce 0) = true ∧
    pud_trans_huge (envC3.pud 0) = true ∧
    stC3.flags.migration = true ∧
    (step envC3 16 Phase.pmdStage { stC3 with pud := some 0 }).map Prod.fst =
      some true := by decide

/-- Witness for the amended C3 theorem: the no-match termination and the
concurrent-split fall-through at concrete inputs. -/
theorem pud_level_outcomes_witness :
    step envC3 9 Phase.restart stC3 =
      some (not_found { stC3 with pud := some 0,
                                  ptl := some (LockId.pudLock 0),
                                  nLocks := 1 }) ∧
    step envC3s 9 Phase.restart stC3 =
      step envC3s 8 Phase.pmdStage
        { stC3 with pud := some 0, ptl := Option.none, nLocks := 1 } :=
  ⟨(pud_level_outcomes envC3 8 stC3 500 (by decide) (by decide) (by decide)).1
      (by decide) (Or.inl (by decide)),
   (pud_level_outcomes envC3s 8 stC3 500 (by decide) (by decide)
      (by decide)).2.2 (by decide)⟩

/-- Witness for C4: concrete migration placeholder for the target's frame. -/
theorem check_pte_migration_placeholder_witness :
    check_pte envW4
        { stW4 with flags := { stW4.flags with migration := true } } = true ∧
    check_pte envW4
        { stW4 with flags := { stW4.flags with migration := false } } = false ∧
    step envW4 3 Phase.pteLoop
        { stW4 with flags := { stW4.flags with migration := true } } =
      some (true, { stW4 with flags := { stW4.flags with migration := true } }) :=
  check_pte_migration_placeholder envW4 2 stW4 ⟨SwpKind.migration, 7⟩ rfl
    (by decide) (by decide)

/-- Counterexample to claim C5 as stated: after a pmd-level match on a
pud-order compound target (first call returns `true` with pmd set and pte
null), the immediately following call returns `true` again (the sibling pmd
also maps the target), not `false` — so the second call's result is NOT
independent of the target's frame count. -/
theorem second_advance_after_pmd_match_cex :
    page_vma_mapped_walk envC5 8 stC5 = some (true, stC5r1) ∧
    stC5r1.pte = Option.none ∧ stC5r1.pmd = some 0 ∧ stC5r1.pud = some 0 ∧
    (page_vma_mapped_walk envC5 8 stC5r1).map Prod.fst = some true := by decide

/-- Witness for the amended C5 theorem: the three immediate-false resumption
cases at concrete inputs. -/
theorem second_advance_immediate_false_cases_witness :
    page_vma_mapped_walk envW1 1 { stW1 with pud := some 0 } =
      some (not_found { stW1 with pud := some 0 }) ∧
    page_vma_mapped_walk envW1 2 stW5b = some (not_found stW5b) ∧
    page_vma_mapped_walk envW1 2 { stW1 with pmd := some 0 } =
      some (not_found { stW1 with pmd := some 0 }) :=
  ⟨(second_advance_immediate_false_cases envW1 0 { stW1 with pud := some 0 }).1
      rfl rfl (by decide),
   (second_advance_immediate_false_cases envW1 0 stW5b).2.1
      (by decide) (by decide),
   (second_advance_immediate_false_cases envW1 0 { stW1 with pmd := some 0 }).2.2
      (by decide) rfl (by decide)⟩

/-- Witness for C6: both boundary crossings at concrete inputs. -/
theorem skip_boundary_crossing_restarts_witness :
    step envW6 5 Phase.pteSkip stW6a =
      step envW6 4 Phase.restart
        { stW6a with address := stW6a.address + PAGE_SIZE, pteMapped := false,
                     ptl := Option.none } ∧
    step envW6 5 Phase.pmdSkip stW6b =
      step envW6 4 Phase.restart
        { stW6b with address := stW6b.address + HPAGE_PMD_SIZE,
                     ptl := Option.none } :=
  ⟨(skip_boundary_crossing_restarts envW6 4 stW6a stW6b).1
      (by decide) (by decide) (by decide),
   (skip_boundary_crossing_restarts envW6 4 stW6a stW6b).2
      (by decide) (by decide) (by decide)⟩

/-- Witness for C7: a hugetlb page with no leaf entry, concrete run. -/
theorem hugetlb_missing_pte_plain_false_witness :
    page_vma_mapped_walk envW1 3 stW7 =
      some (false, { stW7 with pte := Option.none }) ∧
    ({ stW7 with pte := Option.none }).nLocks = stW7.nLocks ∧
    ({ stW7 with pte := Option.none }).nDone = stW7.nDone ∧
    { stW7 with pte := Option.none } ≠ page_vma_mapped_walk_done stW7 :=
  hugetlb_missing_pte_plain_false envW1 2 stW7 rfl rfl rfl (by decide)
    (by decide)

/-- Witness for C8: span entirely outside (returns false without walking) and
span inside (result of the single clipped sync walk). -/
theorem page_mapped_in_vma_span_check_witness :
    page_mapped_in_vma envW9 12 pgW9 vmaW8 = false ∧
    page_mapped_in_vma envW9 12 pgW9 vmaW9 =
      match page_vma_mapped_walk envW9 12
          { page := pgW9, vma := vmaW9,
            address := max envW9.vmaAddress vmaW9.vm_start,
            flags := { sync := true, migration := false },
            pud := Option.none, pmd := Option.none, pte := Option.none,
            ptl := Option.none, pteMapped := false, nLocks := 0,
            nDone := 0 } with
      | some (true, _) => true
      | _ => false :=
  ⟨(page_mapped_in_vma_span_check envW9 12 pgW9 vmaW8).1 (by decide) envW9 rfl,
   (page_mapped_in_vma_span_check envW9 12 pgW9 vmaW9).2 (by decide)⟩

/-- Witness for C10: migration-aware state over a present collapsed pmd. -/
theorem check_pmd_migration_flag_witness :
    (pmd_trans_huge (pmdAt envW10 stW10) = true →
      (check_pmd envW10 stW10).1 = 0) ∧
    ((check_pmd envW10 stW10).1 = 1 →
      envW10.thpMigrationSupported = true ∧
      pmd_present (pmdAt envW10 stW10) = false ∧
      is_migration_entry (pmd_to_swp_entry (pmdAt envW10 stW10)) = true) :=
  check_pmd_migration_flag envW10 stW10 (by decide)

end Pvmw
